import Mathlib

/-!
Verification of the `youtube-analyser` media pipeline.

This file shallowly embeds the control-flow core of the repository:

* `services/analysis_service.py` — the iterative Bluesky post
  generation/validation loop (`generate_bluesky_post`,
  `_validate_bluesky_post`, `_manual_validate_post`);
* `services/bluesky_service.py` — grapheme counting and truncation
  (`_count_graphemes`, `_truncate_to_grapheme_limit`);
* `services/minio_service.py` — the artifact store wrappers
  (`object_exists` and the object-name computation of
  `save` / `save_file` / `retrieve_to_file`);
* `main.py` — the stage-pipeline orchestrator
  (`VideoProcessor.process_video`, `check_files_exist`,
  `parse_minio_path`) and the batch driver
  (`PlaylistProcessor.process_playlist`).

Python strings are modelled as Lean `String` (a sequence of unicode code
points, which matches Python's `str`: `len`, slicing and `count` operate
on code points in both).  External collaborators (the Ollama LLM client,
the MinIO client, ffmpeg, whisper, the thumbnail downloader) are modelled
as environment parameters recording their outcomes; the MinIO object
store is modelled as the list of object keys present, with `stat`/`get`
succeeding exactly on present keys (the spec's ArtifactStore contract:
`get` fails with NotFound if absent) and `put` adding the key.
-/

/-! ## Python string primitives -/

/-- Python `s[:n]` on a `str`: the first `n` code points. -/
def pySlice (s : String) (n : Nat) : String := ⟨s.data.take n⟩

/-- Python `s.count(c)` for a single-character needle: number of
occurrences of the code point `c`. -/
def pyCountChar (s : String) (c : Char) : Nat := s.data.countP (fun d => d == c)

/-- Python `len(s)`: the number of code points. -/
def pyLen (s : String) : Nat := s.data.length

/-- Python `s.strip('/')`: remove leading and trailing `'/'` characters. -/
def pyStripSlashes (s : String) : String :=
  ⟨((s.data.dropWhile (fun c => c == '/')).reverse.dropWhile (fun c => c == '/')).reverse⟩

/-- Python whitespace for `str.strip()` (the ASCII whitespace
characters; exotic unicode spaces are not modelled). -/
def pyIsSpace (c : Char) : Bool :=
  c == ' ' || c == '\t' || c == '\n' || c == '\r' || c == '\x0b' || c == '\x0c'

/-- Python `s.strip()`: remove leading and trailing whitespace.
(Structurally recursive so that concrete runs reduce in the kernel.) -/
def String.pyTrim (s : String) : String :=
  ⟨((s.data.dropWhile pyIsSpace).reverse.dropWhile pyIsSpace).reverse⟩

/-- Split a code-point list at every occurrence of the separator. -/
def splitOnCharList (sep : Char) : List Char → List (List Char)
  | [] => [[]]
  | c :: rest =>
    let r := splitOnCharList sep rest
    if c == sep then [] :: r
    else
      match r with
      | [] => [[c]]
      | h :: t => (c :: h) :: t

/-- Python `s.split(sep)` for a single-character separator. -/
def String.pySplitChar (s : String) (sep : Char) : List String :=
  (splitOnCharList sep s.data).map (fun l => ⟨l⟩)

/-- Python `sep.join(xs)`. -/
def pyIntercalate (sep : String) : List String → String
  | [] => ""
  | [x] => x
  | x :: xs => x ++ sep ++ pyIntercalate sep xs

/-- Occurrence of `pat` as a contiguous sublist of `l`. -/
def listContainsSub (l pat : List Char) : Bool :=
  match l with
  | [] => pat.isEmpty
  | _ :: rest => pat.isPrefixOf l || listContainsSub rest pat

/-- Python `"sub" in s`: substring containment. -/
def strContains (s pat : String) : Bool := listContainsSub s.data pat.data

/-- Python `c.upper()` for one character (ASCII letters). -/
def pyUpperChar (c : Char) : Char :=
  if 'a' ≤ c && c ≤ 'z' then Char.ofNat (c.toNat - 32) else c

/-- Python `c.lower()` for one character (ASCII letters). -/
def pyLowerChar (c : Char) : Char :=
  if 'A' ≤ c && c ≤ 'Z' then Char.ofNat (c.toNat + 32) else c

/-- Python `s.upper()` (ASCII letters). -/
def String.pyToUpper (s : String) : String := ⟨s.data.map pyUpperChar⟩

/-- Python `s.lower()` (ASCII letters). -/
def String.pyToLower (s : String) : String := ⟨s.data.map pyLowerChar⟩

/-- Python `s.endswith(suffix)`. -/
def String.pyEndsWith (s suffix : String) : Bool := suffix.data.isSuffixOf s.data

/-- Python `s[:-n]` (for `n` at most the length): all but the last `n`
code points. -/
def String.pyDropRight (s : String) (n : Nat) : String :=
  ⟨s.data.take (s.data.length - n)⟩

/-- Digit run of Python `int(...)`: at least one digit, no other
characters (underscore grouping is not modelled). -/
def pyParseDigits : List Char → Nat → Option Nat
  | [], acc => some acc
  | c :: rest, acc =>
    if c.isDigit then pyParseDigits rest (acc * 10 + (c.toNat - 48)) else none

/-- Python `int(s)` returning `none` where Python raises `ValueError`:
an optional sign followed by at least one digit. -/
def String.pyToIntOpt (s : String) : Option Int :=
  match s.data with
  | [] => none
  | '-' :: rest =>
    if rest.isEmpty then none else (pyParseDigits rest 0).map (fun n => -(n : Int))
  | '+' :: rest =>
    if rest.isEmpty then none else (pyParseDigits rest 0).map (fun n => (n : Int))
  | l => (pyParseDigits l 0).map (fun n => (n : Int))

/-! ## Bluesky post validation (services/analysis_service.py)

`OllamaAnalysisService._manual_validate_post` (lines 237-273),
`OllamaAnalysisService._validate_bluesky_post` (lines 141-235) and
`OllamaAnalysisService.generate_bluesky_post` (lines 534-616).

The LLM collaborator is modelled by two functions: `gen i g` is the
(stripped-later) chat completion produced at iteration `i` from
improvement guidance `g` (`.error` models the client raising), and
`val p` is the raw validation response the LLM returns for post `p`
(`none` models the validation chat call raising, which the code
catches and routes to manual validation). -/

/-- `_manual_validate_post`: counts code points (`len`) and `'#'`
occurrences on the candidate text; accepts iff `len <= 290` and
`count('#') >= 2`; returns `(meets_requirements, improvement_guidance)`. -/
def manual_validate_post (post_content : String) : Bool × String :=
  let character_count := pyLen post_content
  let hashtag_count := pyCountChar post_content '#'
  let meets_requirements := decide (character_count ≤ 290) && decide (hashtag_count ≥ 2)
  if meets_requirements then (true, "APPROVED")
  else
    let issues :=
      (if character_count > 290 then
        ["Too long (" ++ toString character_count ++ "/290 characters)"] else []) ++
      (if hashtag_count < 2 then
        ["Need more hashtags (" ++ toString hashtag_count ++ "/2 minimum)"] else [])
    (false, "Manual validation failed: " ++ pyIntercalate ", " issues)

/-- Parser state of `_validate_bluesky_post`'s line loop:
`meets_requirements`, `improvement_guidance`, `character_count`,
`hashtag_count` (the latter two `none` until parsed). -/
structure ValParse where
  meets : Bool
  guidance : String
  charCount : Option Int
  hashtagCount : Option Int
deriving DecidableEq, Repr

/-- Python `line.split(":", 1)[1]`: everything after the first colon,
or `none` when the line has no colon (`len(parts) <= 1`). -/
def afterFirstColon (line : String) : Option String :=
  match line.pySplitChar ':' with
  | [] => none
  | [_] => none
  | _ :: rest => some (pyIntercalate ":" rest)

/-- One line of `_validate_bluesky_post`'s parsing loop (the
`if`/`elif` chain over the tags; a failed `int(...)` leaves the
previously parsed value in place). -/
def parseValidationLine (st : ValParse) (line : String) : ValParse :=
  if strContains line "MEETS_REQUIREMENTS:" then
    { st with meets := strContains line.pyToUpper "YES" }
  else if strContains line "IMPROVEMENT_GUIDANCE:" then
    match afterFirstColon line with
    | some tail => { st with guidance := tail.pyTrim }
    | none => st
  else if strContains line "CHARACTER_COUNT:" then
    match afterFirstColon line with
    | some tail =>
      match tail.pyTrim.pyToIntOpt with
      | some v => { st with charCount := some v }
      | none => st
    | none => st
  else if strContains line "HASHTAG_COUNT:" then
    match afterFirstColon line with
    | some tail =>
      match tail.pyTrim.pyToIntOpt with
      | some v => { st with hashtagCount := some v }
      | none => st
    | none => st
  else st

/-- The parsing phase of `_validate_bluesky_post`: split the response
into stripped nonempty lines and fold the line parser over them. -/
def parseValidation (resp : String) : ValParse :=
  let lines := ((resp.pySplitChar '\n').map String.pyTrim).filter (fun l => decide (l ≠ ""))
  lines.foldl parseValidationLine ⟨false, "", none, none⟩

/-- `_validate_bluesky_post`: ask the LLM (`valEnv`); on a raised
exception (`none`), an empty/short response, or a response in which the
character count or hashtag count could not be parsed, fall back to
`manual_validate_post`; otherwise return the parsed verdict and
guidance. -/
def validate_bluesky_post (valEnv : String → Option String) (post_content : String) :
    Bool × String :=
  match valEnv post_content with
  | none => manual_validate_post post_content
  | some raw =>
    let validation_response := raw.pyTrim
    if validation_response == "" || decide (pyLen validation_response < 10) then
      manual_validate_post post_content
    else
      let p := parseValidation validation_response
      match p.charCount, p.hashtagCount with
      | some _, some _ => (p.meets, p.guidance)
      | _, _ => manual_validate_post post_content

/-- The two LLM collaborators of the generation loop. -/
structure GenEnv where
  gen : Nat → String → Except String String
  val : String → Option String

/-- Result of `generate_bluesky_post`: the returned text or the raised
exception message, together with the number of generate/validate cycles
that completed (a generation call that raises does not complete its
cycle). -/
structure BskyRun where
  result : Except String String
  cycles : Nat
deriving Repr

/-- The final truncation of the `forceAccept` branch (iteration
`max_iterations`): `post_content[:287] + "..."` when over 290
characters. -/
def forceTruncate (post_content : String) : String :=
  if pyLen post_content > 290 then pySlice post_content 287 ++ "..." else post_content

/-- The `for iteration in range(1, max_iterations + 1)` loop of
`generate_bluesky_post`, with `remaining + 1` iterations left to run
(`remaining = 0` means `iteration == max_iterations`).  The fuel-0 case
corresponds to falling out of the loop, which is unreachable from the
top-level call because the last iteration always returns. -/
def bskyLoop (genv : GenEnv) (iteration : Nat) (guidance : String) : Nat → BskyRun
  | 0 => ⟨.ok "", 0⟩
  | remaining + 1 =>
    match genv.gen iteration guidance with
    | .error e => ⟨.error e, 0⟩
    | .ok raw =>
      let post_content := raw.pyTrim
      let v := validate_bluesky_post genv.val post_content
      if v.1 then ⟨.ok post_content, 1⟩
      else if remaining == 0 then ⟨.ok (forceTruncate post_content), 1⟩
      else
        let r := bskyLoop genv (iteration + 1) v.2 remaining
        ⟨r.result, r.cycles + 1⟩

/-- `generate_bluesky_post` (max_iterations = 5): reject empty analysis
content, run the loop, and wrap any exception in the outer
`Failed to generate Bluesky post ...` message. -/
def generate_bluesky_post (genv : GenEnv) (video_id analysis_content : String) : BskyRun :=
  if analysis_content.pyTrim == "" then
    ⟨.error ("Failed to generate Bluesky post for video " ++ video_id ++
      ": Analysis content is empty"), 0⟩
  else
    let r := bskyLoop genv 1 "" 5
    match r.result with
    | .error e =>
      ⟨.error ("Failed to generate Bluesky post for video " ++ video_id ++ ": " ++ e),
        r.cycles⟩
    | .ok t => ⟨.ok t, r.cycles⟩

/-- The candidate/guidance chain of the loop when the generator never
raises: `(bskyState genv i).2` is the guidance carried out of iteration
`i` (`i = 0`: the initial empty guidance), and `(bskyState genv i).1`
for `i ≥ 1` is the stripped candidate generated at iteration `i`. -/
def bskyState (genv : GenEnv) : Nat → String × String
  | 0 => ("", "")
  | i + 1 =>
    let g := (bskyState genv i).2
    let c := ((genv.gen (i + 1) g).toOption.getD "").pyTrim
    (c, (validate_bluesky_post genv.val c).2)

/-! ## Grapheme counting and truncation (services/bluesky_service.py)

`BlueskyService._truncate_to_grapheme_limit` (lines 83-102) repeatedly
drops the last code point (`truncated[:-1]`) until the grapheme count
fits, then backs off further so that an appended `"..."` still fits.
Texts are represented here as `List Char` (Python code-point
sequences). -/

/-- A combining diacritical mark (U+0300 - U+036F). -/
def isCombiningMark (c : Char) : Bool :=
  decide (0x0300 ≤ c.toNat) && decide (c.toNat ≤ 0x036F)

/-- Modelled from the spec: the external `grapheme` library backing
`BlueskyService._count_graphemes` ("count graphemes (visual characters)
... a user-perceived character, potentially composed of multiple
underlying code units").  Restricted to the cluster rule relevant here:
a combining diacritical mark extends the preceding cluster, every other
character starts a new cluster (a leading combining mark forms a
degenerate cluster of its own, as in UAX #29). -/
def count_graphemes (text : List Char) : Nat :=
  match text with
  | [] => 0
  | _ :: rest => 1 + rest.countP (fun c => !(isCombiningMark c))

/-- The first `while` loop of `_truncate_to_grapheme_limit`: drop the
last code point until the grapheme count is within the limit. -/
def shrinkToLimit (limit : Nat) (text : List Char) : List Char :=
  if count_graphemes text ≤ limit then text else shrinkToLimit limit text.dropLast
termination_by text.length
decreasing_by
  have hne : text ≠ [] := by
    intro h
    simp [h, count_graphemes] at *
  have hpos : 0 < text.length := List.length_pos.mpr hne
  simp only [List.length_dropLast]
  omega

/-- The ellipsis appended by `_truncate_to_grapheme_limit`. -/
def ellipsisChars : List Char := ['.', '.', '.']

/-- The second `while` loop: drop the last code point until the text
plus `"..."` is within the limit.  For `limit < 3` the Python loop never
terminates; this is modelled by fuel, with `none` for divergence. -/
def shrinkForEllipsis (limit : Nat) : Nat → List Char → Option (List Char)
  | 0, _ => none
  | fuel + 1, text =>
    if count_graphemes (text ++ ellipsisChars) ≤ limit then some text
    else shrinkForEllipsis limit fuel text.dropLast

/-- `_truncate_to_grapheme_limit(text, limit)`: return the text
unchanged when it fits, otherwise truncate and append `"..."`.
`none` models the non-termination of the second loop. -/
def truncate_to_grapheme_limit (text : List Char) (limit : Nat) : Option (List Char) :=
  if count_graphemes text ≤ limit then some text
  else
    let truncated := shrinkToLimit limit text
    if truncated == text then some truncated
    else (shrinkForEllipsis limit (truncated.length + 1) truncated).map
      (fun t => t ++ ellipsisChars)

/-! ## MinIO object existence (services/minio_service.py)

`MinIOService.object_exists` (lines 343-367).  The underlying
`client.stat_object` call is the external collaborator; its outcome on
a given bucket and object name is a parameter. -/

/-- Outcome of the `stat_object` collaborator call. -/
inductive StatOutcome where
  | found
  | s3error
  | otherError
deriving DecidableEq, Repr

/-- Python `bucket_name or self.bucket_name`: the override is used
unless it is `None` or empty (falsy). -/
def pyOrDefault (override : Option String) (dflt : String) : String :=
  match override with
  | some b => if b == "" then dflt else b
  | none => dflt

/-- The object key `object_exists` computes:
`f"{folder.strip('/')}/{filename}"`. -/
def objName (folder filename : String) : String :=
  pyStripSlashes folder ++ "/" ++ filename

/-- `object_exists`: stat the object; `True` on success, `False` on
`S3Error` and on every other exception. -/
def object_exists (stat : String → String → StatOutcome) (bucketDefault : String)
    (folder filename : String) (bucketOverride : Option String) : Bool :=
  let bucket := pyOrDefault bucketOverride bucketDefault
  let object_name := objName folder filename
  match stat bucket object_name with
  | .found => true
  | .s3error => false
  | .otherError => false

/-! ## The stage pipeline (main.py, `VideoProcessor`)

The object store is the list of object keys present (`stat`/`get`
succeed exactly on present keys, `put` adds the key — the ArtifactStore
contract of the spec).  A run is observed through its event trace:
existence queries, artifact fetches into the working directory,
artifact puts, and the invocation of each stage's production function
(ffmpeg audio extraction, whisper transcription, thumbnail download,
and the three Ollama generations). -/

/-- The store: object keys present in the bucket. -/
abbrev Store := List String

/-- Observable events of one `process_video` run. -/
inductive Event where
  | query (obj : String)
  | fetch (obj : String)
  | put (obj : String)
  | execAudio
  | execTranscribe
  | execThumb
  | execAnalysis
  | execLinkedin
  | execBluesky
  | shortCircuit
deriving DecidableEq, Repr

/-- Outcomes of the external collaborators used by one run: ffmpeg
extraction, whisper transcription, JSON metadata retrieval+parsing,
thumbnail download, the two Ollama generations, the (disabled) Bluesky
stage, and MinIO uploads (per object key). -/
structure Env where
  extractAudioOk : Bool
  transcribeOk : Bool
  jsonParseOk : Bool
  thumbDownloadOk : Bool
  analysisOk : Bool
  linkedinOk : Bool
  blueskyOk : Bool
  saveOk : String → Bool

/-- Result of a pipeline step (and of the whole run): the store after
the step, the events it emitted, and whether it succeeded. -/
structure StageRes where
  store : Store
  events : List Event
  ok : Bool

/-- `main.py`'s pre-joined object name used with `MinIOService.save`:
`f"{folder}/{filename}" if folder else filename` (no slash-stripping,
unlike `objName`). -/
def joinName (folder filename : String) : String :=
  if folder == "" then filename else folder ++ "/" ++ filename

/-- `MinIOService.object_exists` against the deterministic store:
stat succeeds exactly on present keys. -/
def storeExists (store : Store) (folder filename : String) : Bool :=
  decide (objName folder filename ∈ store)

/-- `MinIOService.retrieve_to_file` / `retrieve` against the
deterministic store: `get` fails with NotFound exactly on absent keys. -/
def storeRetrieve (store : Store) (folder filename : String) : Bool :=
  decide (objName folder filename ∈ store)

/-- The existence snapshot of `check_files_exist` (main.py 91-115). -/
structure FileStatus where
  wav : Bool
  txt : Bool
  analysis : Bool
  linkedin : Bool
  bluesky : Bool
  json : Bool
  thumbnail : Bool
  small_video : Bool
deriving DecidableEq, Repr

/-- `check_files_exist`: query the eight derived artifacts, in the
dictionary order of the source. -/
def check_files_exist (store : Store) (folder base_filename : String) :
    FileStatus × List Event :=
  ({ wav := storeExists store folder (base_filename ++ ".wav")
     txt := storeExists store folder (base_filename ++ ".txt")
     analysis := storeExists store folder (base_filename ++ "-analysis.txt")
     linkedin := storeExists store folder (base_filename ++ "-linkedin.txt")
     bluesky := storeExists store folder (base_filename ++ "-bluesky.txt")
     json := storeExists store folder (base_filename ++ ".json")
     thumbnail := storeExists store folder (base_filename ++ ".webp")
     small_video := storeExists store folder (base_filename ++ "-sm.mp4") },
   [Event.query (objName folder (base_filename ++ ".wav")),
    Event.query (objName folder (base_filename ++ ".txt")),
    Event.query (objName folder (base_filename ++ "-analysis.txt")),
    Event.query (objName folder (base_filename ++ "-linkedin.txt")),
    Event.query (objName folder (base_filename ++ "-bluesky.txt")),
    Event.query (objName folder (base_filename ++ ".json")),
    Event.query (objName folder (base_filename ++ ".webp")),
    Event.query (objName folder (base_filename ++ "-sm.mp4"))])

/-- Python `all(file_status.values())`. -/
def allExist (st : FileStatus) : Bool :=
  st.wav && st.txt && st.analysis && st.linkedin && st.bluesky && st.json &&
    st.thumbnail && st.small_video

/-- The all-false snapshot synthesized in force mode (main.py 629-640). -/
def allFalseStatus : FileStatus :=
  { wav := false, txt := false, analysis := false, linkedin := false,
    bluesky := false, json := false, thumbnail := false, small_video := false }

/-- Sequencing with the code's early-return-on-failure: run the
continuation only when the step succeeded. -/
def andThen (r : StageRes) (k : Store → StageRes) : StageRes :=
  if r.ok then
    let r2 := k r.store
    ⟨r2.store, r.events ++ r2.events, r2.ok⟩
  else ⟨r.store, r.events, false⟩

/-- `VideoProcessor.convert_audio` (main.py 117-162): run ffmpeg
extraction, then upload the WAV via `save_file` (slash-stripped key). -/
def convert_audio (env : Env) (store : Store) (folder wav_filename : String) : StageRes :=
  if env.extractAudioOk then
    let n := objName folder wav_filename
    if env.saveOk n then ⟨n :: store, [Event.execAudio, Event.put n], true⟩
    else ⟨store, [Event.execAudio], false⟩
  else ⟨store, [Event.execAudio], false⟩

/-- `VideoProcessor.transcribe_audio` (main.py 164-216): run whisper,
then upload the TXT via `save` with main.py's pre-joined key. -/
def transcribe_audio (env : Env) (store : Store) (folder txt_filename : String) : StageRes :=
  if env.transcribeOk then
    let n := joinName folder txt_filename
    if env.saveOk n then ⟨n :: store, [Event.execTranscribe, Event.put n], true⟩
    else ⟨store, [Event.execTranscribe], false⟩
  else ⟨store, [Event.execTranscribe], false⟩

/-- `VideoProcessor.download_and_upload_thumbnail` (main.py 442-523):
require the `{base}.json` metadata object, retrieve and parse it,
download the thumbnail, and upload it via `save_file`.
`env.jsonParseOk` covers "retrieve returned data and `json.loads`
succeeded". -/
def download_and_upload_thumbnail (env : Env) (store : Store) (folder base_filename : String) :
    StageRes :=
  let jn := objName folder (base_filename ++ ".json")
  if !(decide (jn ∈ store)) then ⟨store, [Event.query jn], false⟩
  else if !env.jsonParseOk then ⟨store, [Event.query jn, Event.fetch jn], false⟩
  else if !env.thumbDownloadOk then
    ⟨store, [Event.query jn, Event.fetch jn, Event.execThumb], false⟩
  else
    let tn := objName folder (base_filename ++ ".webp")
    if env.saveOk tn then
      ⟨tn :: store, [Event.query jn, Event.fetch jn, Event.execThumb, Event.put tn], true⟩
    else ⟨store, [Event.query jn, Event.fetch jn, Event.execThumb], false⟩

/-- `VideoProcessor.generate_analysis` (main.py 218-275). -/
def generate_analysis (env : Env) (store : Store) (folder analysis_filename : String) :
    StageRes :=
  if env.analysisOk then
    let n := joinName folder analysis_filename
    if env.saveOk n then ⟨n :: store, [Event.execAnalysis, Event.put n], true⟩
    else ⟨store, [Event.execAnalysis], false⟩
  else ⟨store, [Event.execAnalysis], false⟩

/-- `VideoProcessor.generate_linkedin_post` (main.py 277-337). -/
def generate_linkedin_post (env : Env) (store : Store) (folder linkedin_filename : String) :
    StageRes :=
  if env.linkedinOk then
    let n := joinName folder linkedin_filename
    if env.saveOk n then ⟨n :: store, [Event.execLinkedin, Event.put n], true⟩
    else ⟨store, [Event.execLinkedin], false⟩
  else ⟨store, [Event.execLinkedin], false⟩

/-- `VideoProcessor.generate_and_post_bluesky` (main.py 339-440),
modelled abstractly (generation outcome, store write): it is
unreachable from `process_video`, whose guarding condition is and-ed
with the literal `False` (main.py 784), and no claim depends on its
internals. -/
def generate_and_post_bluesky (env : Env) (store : Store) (folder bluesky_filename : String) :
    StageRes :=
  if env.blueskyOk then
    let n := joinName folder bluesky_filename
    if env.saveOk n then ⟨n :: store, [Event.execBluesky, Event.put n], true⟩
    else ⟨store, [Event.execBluesky], false⟩
  else ⟨store, [Event.execBluesky], false⟩

/-- `VideoProcessor.parse_minio_path` (main.py 824-835): folder is the
parent path ("" when the path has no directory part), filename the last
component.  (Matches `pathlib` on the plain `a/b/name.mp4` paths this
program receives; `pathlib`'s normalization of duplicate slashes and
dots is not reproduced.) -/
def parse_minio_path (minio_path : String) : String × String :=
  let parts := minio_path.pySplitChar '/'
  (pyIntercalate "/" parts.dropLast, parts.getLastD "")

/-- Step 2 of `process_video`: the WAV stage (main.py 662-683).  If the
WAV is already satisfied, fetch it into the working area only when one
of txt/analysis/linkedin/bluesky still has to run. -/
def wavStep (env : Env) (store : Store) (folder base : String) (st : FileStatus) : StageRes :=
  if !st.wav then convert_audio env store folder (base ++ ".wav")
  else if !(st.txt && st.analysis && st.linkedin && st.bluesky) then
    ⟨store, [Event.fetch (objName folder (base ++ ".wav"))],
      storeRetrieve store folder (base ++ ".wav")⟩
  else ⟨store, [], true⟩

/-- Step 3 of `process_video`: the transcription stage (main.py
685-715). -/
def txtStep (env : Env) (store : Store) (folder base : String) (st : FileStatus) : StageRes :=
  if !st.txt then transcribe_audio env store folder (base ++ ".txt")
  else if !(st.analysis && st.linkedin && st.bluesky) then
    ⟨store, [Event.fetch (objName folder (base ++ ".txt"))],
      storeRetrieve store folder (base ++ ".txt")⟩
  else ⟨store, [], true⟩

/-- Step 3.5 of `process_video`: the thumbnail stage (main.py
717-727). -/
def thumbStep (env : Env) (store : Store) (folder base : String) (st : FileStatus) : StageRes :=
  if !st.thumbnail then download_and_upload_thumbnail env store folder base
  else ⟨store, [], true⟩

/-- Step 4 of `process_video`: the analysis stage (main.py 753-765). -/
def analysisStep (env : Env) (store : Store) (folder base : String) (st : FileStatus) :
    StageRes :=
  if !st.analysis then generate_analysis env store folder (base ++ "-analysis.txt")
  else ⟨store, [], true⟩

/-- Step 5 of `process_video`: the LinkedIn stage (main.py 767-781). -/
def linkedinStep (env : Env) (store : Store) (folder base : String) (st : FileStatus) :
    StageRes :=
  if !st.linkedin then generate_linkedin_post env store folder (base ++ "-linkedin.txt")
  else ⟨store, [], true⟩

/-- Step 6 of `process_video`: the Bluesky stage (main.py 783-816).
The source condition is `if not file_status["bluesky"] and False:`, so
the stage body never runs. -/
def blueskyStep (env : Env) (store : Store) (folder base : String) (st : FileStatus) :
    StageRes :=
  if !st.bluesky && false then generate_and_post_bluesky env store folder (base ++ "-bluesky.txt")
  else ⟨store, [], true⟩

/-- Steps 1-6 of `process_video` (main.py 654-818): source check and
download, then the six stages in order, each aborting the run on
failure. -/
def pipelineRest (env : Env) (store : Store) (folder fn base : String) (st : FileStatus) :
    StageRes :=
  andThen ⟨store, [Event.query (objName folder fn)], decide (objName folder fn ∈ store)⟩ (fun s1 =>
  andThen ⟨s1, [Event.fetch (objName folder fn)], storeRetrieve s1 folder fn⟩ (fun s2 =>
  andThen (wavStep env s2 folder base st) (fun s3 =>
  andThen (txtStep env s3 folder base st) (fun s4 =>
  andThen (thumbStep env s4 folder base st) (fun s5 =>
  andThen (analysisStep env s5 folder base st) (fun s6 =>
  andThen (linkedinStep env s6 folder base st) (fun s7 =>
  blueskyStep env s7 folder base st)))))))

/-- `VideoProcessor.process_video` (main.py 593-822). -/
def process_video (env : Env) (store : Store) (minio_path : String) (force : Bool) : StageRes :=
  let folder := (parse_minio_path minio_path).1
  let mp4_filename := (parse_minio_path minio_path).2
  if !(mp4_filename.pyToLower.pyEndsWith ".mp4") then ⟨store, [], false⟩
  else
    let base := mp4_filename.pyDropRight 4
    let snap :=
      if force then (allFalseStatus, ([] : List Event))
      else check_files_exist store folder base
    let st := snap.1
    if !force && allExist st then ⟨store, snap.2 ++ [Event.shortCircuit], true⟩
    else
      let rest := pipelineRest env store folder mp4_filename base st
      ⟨rest.store, snap.2 ++ rest.events, rest.ok⟩

/-! ## The playlist driver (main.py, `PlaylistProcessor.process_playlist`,
lines 869-925) -/

/-- Outcome of one `process_video` call as seen by the playlist loop:
a returned boolean, or a raised exception (caught by the loop). -/
inductive ProcOutcome where
  | ok (b : Bool)
  | exn
deriving DecidableEq, Repr

/-- A playlist entry: its optional `id` (entries without an id are
counted as failed and skipped). -/
structure PVideo where
  id : Option String
deriving DecidableEq, Repr

/-- The object path the playlist loop processes for a video id. -/
def videoPath (vid : String) : String := "downloads/" ++ vid ++ ".mp4"

/-- One iteration of the playlist loop: `true` iff the entry counts as
a success; the attempted path, if a `process_video` call was made. -/
def playlistStep (procEnv : String → ProcOutcome) (v : PVideo) : Bool × Option String :=
  match v.id with
  | none => (false, none)
  | some vid =>
    match procEnv (videoPath vid) with
    | .ok b => (b, some (videoPath vid))
    | .exn => (false, some (videoPath vid))

/-- The playlist loop over an (already reversed) list of entries:
success count, error count, and the attempted paths in order. -/
def playlistLoop (procEnv : String → ProcOutcome) : List PVideo → Nat × Nat × List String
  | [] => (0, 0, [])
  | v :: rest =>
    let hd := playlistStep procEnv v
    let r := playlistLoop procEnv rest
    ((if hd.1 then 1 else 0) + r.1, (if hd.1 then 0 else 1) + r.2.1,
      hd.2.toList ++ r.2.2)

/-- `process_playlist`: reverse the list (oldest first), process every
entry, catching per-entry failures and exceptions; return
`error_count == 0` together with the attempted paths in order. -/
def process_playlist (procEnv : String → ProcOutcome) (videos : List PVideo) :
    Bool × List String :=
  if videos.isEmpty then (true, [])
  else
    let r := playlistLoop procEnv videos.reverse
    (r.2.1 == 0, r.2.2)

/-- A validator environment that always rejects: the LLM responds with
a parseable verdict of NO (used to exercise validation exhaustion). -/
def c3RejResp : String :=
  "MEETS_REQUIREMENTS: NO\nCHARACTER_COUNT: 500\nHASHTAG_COUNT: 0\nIMPROVEMENT_GUIDANCE: add hashtags and shorten"

/-- Generator that always succeeds, validator that always rejects. -/
def c3Genv : GenEnv :=
  ⟨fun i _ => .ok ("Candidate post number " ++ toString i ++ " #ai #video"),
   fun _ => some c3RejResp⟩

/-- 150 copies of `e` followed by U+0301 (combining acute accent), then
two hashtag marks: 302 code points but only 152 graphemes. -/
def c4Post : String := ⟨(List.replicate 150 ['e', '́']).flatten ++ ['#', '#']⟩

/-- An LLM validation response with no parseable numeric fields. -/
def c4Resp : String := "The post looks fine to me overall."

/-- Validator environment returning that unparseable response. -/
def c4Val : String → Option String := fun _ => some c4Resp

/-- A post accepted by the validator, used for the C5 environment. -/
def c5GoodPost : String := "Great findings on robot learning! #ai #robotics"

/-- A parseable, approving validation response matching `c5GoodPost`. -/
def c5OkResp : String :=
  "MEETS_REQUIREMENTS: YES\nCHARACTER_COUNT: 48\nHASHTAG_COUNT: 2\nIMPROVEMENT_GUIDANCE: none needed"

/-- Generator that raises on iteration 1 and would succeed with a valid
candidate from iteration 2 on; validator that approves. -/
def c5Genv : GenEnv :=
  ⟨fun i _ => if i == 1 then .error "Ollama chat failed: rate limited" else .ok c5GoodPost,
   fun _ => some c5OkResp⟩

/-! ## Concrete environments and stores for the pipeline claims -/

/-- An environment in which every external collaborator succeeds. -/
def allOkEnv : Env :=
  { extractAudioOk := true, transcribeOk := true, jsonParseOk := true,
    thumbDownloadOk := true, analysisOk := true, linkedinOk := true,
    blueskyOk := true, saveOk := fun _ => true }

/-- A store for a folder-less job: the raw video and its metadata,
under the keys the folder-less retrieval path uses. -/
def c1Store : Store := ["/video.mp4", "/video.json"]

/-! ## Claim C2: force mode -/

/-- A job in folder `f` whose eight derived outputs all already exist,
along with the raw video. -/
def c2Store : Store :=
  ["f/v.mp4", "f/v.wav", "f/v.txt", "f/v-analysis.txt", "f/v-linkedin.txt",
   "f/v-bluesky.txt", "f/v.json", "f/v.webp", "f/v-sm.mp4"]

/-! ## Claim C7: skip-and-fetch condition for the WAV artifact -/

/-- A job in folder `f` whose WAV and transcript (and everything except
the analysis) already exist. -/
def c7Store : Store :=
  ["f/v.mp4", "f/v.wav", "f/v.txt", "f/v-linkedin.txt", "f/v-bluesky.txt",
   "f/v.json", "f/v.webp", "f/v-sm.mp4"]

/-! ## Theorems -/

theorem pyLen_eq_length (s : String) : pyLen s = s.length := rfl

theorem data_append (a b : String) : (a ++ b).data = a.data ++ b.data := rfl

theorem pyLen_append (a b : String) : pyLen (a ++ b) = pyLen a + pyLen b := by
  simp [pyLen, data_append]

theorem pyLen_pySlice (s : String) (n : Nat) :
    pyLen (pySlice s n) = min n (pyLen s) := by
  simp [pyLen, pySlice]

/-! ## Object-name disjointness

Every artifact key the pipeline ever writes ends in `'v'` (`.wav`),
`'t'` (`.txt`), or `'p'` (`.webp`), while the raw-metadata key ends in
`'n'` (`.json`); the keys are therefore distinct strings. -/

theorem string_ne_of_last_ne (a b : String) (h : a.data.getLast? ≠ b.data.getLast?) :
    a ≠ b := fun he => h (he ▸ rfl)

theorem getLast?_append_str (s t : String) (c : Char) (h : t.data.getLast? = some c)
    (hne : t.data ≠ []) : (s ++ t).data.getLast? = some c := by
  rw [data_append, List.getLast?_append_of_ne_nil _ hne, h]

theorem last_joinName (folder fn : String) (c : Char) (h : fn.data.getLast? = some c)
    (hne : fn.data ≠ []) : (joinName folder fn).data.getLast? = some c := by
  unfold joinName
  split
  · exact h
  · exact getLast?_append_str _ _ _ h hne

theorem last_objName (folder fn : String) (c : Char) (h : fn.data.getLast? = some c)
    (hne : fn.data ≠ []) : (objName folder fn).data.getLast? = some c := by
  unfold objName
  exact getLast?_append_str _ _ _ h hne

theorem last_append_suffix (base sfx : String) (c : Char) (h : sfx.data.getLast? = some c)
    (hne : sfx.data ≠ []) : (base ++ sfx).data.getLast? = some c :=
  getLast?_append_str _ _ _ h hne

/-! ## Claim C8: `object_exists` totality -/

/-- C8: for every folder, filename and bucket, `MinIOService.object_exists`
returns a boolean and never raises: it returns `true` exactly when the
`stat_object` metadata call succeeds, and `false` on any error
(`S3Error`, i.e. not-found, as well as any other exception, covering
transient errors). -/
theorem C8_object_exists_total (stat : String → String → StatOutcome)
    (bucketDefault folder filename : String) (bucketOverride : Option String) :
    (object_exists stat bucketDefault folder filename bucketOverride = true ↔
      stat (pyOrDefault bucketOverride bucketDefault) (objName folder filename) =
        StatOutcome.found) ∧
    (object_exists stat bucketDefault folder filename bucketOverride = false ↔
      stat (pyOrDefault bucketOverride bucketDefault) (objName folder filename) ≠
        StatOutcome.found) := by
  unfold object_exists
  cases h : stat (pyOrDefault bucketOverride bucketDefault) (objName folder filename) <;>
    simp [h]

/-! ## Claim C6: batch isolation of the playlist loop -/

theorem playlistStep_attempt (procEnv : String → ProcOutcome) (v : PVideo) :
    (playlistStep procEnv v).2 = v.id.map videoPath := by
  unfold playlistStep
  cases v.id with
  | none => rfl
  | some vid => cases h : procEnv (videoPath vid) <;> simp [h]

theorem playlistStep_success (procEnv : String → ProcOutcome) (v : PVideo) :
    (playlistStep procEnv v).1 = true ↔
      ∃ vid, v.id = some vid ∧ procEnv (videoPath vid) = .ok true := by
  unfold playlistStep
  cases v.id with
  | none => simp
  | some vid =>
    cases h : procEnv (videoPath vid) with
    | ok b => simp [h]
    | exn => simp [h]

theorem playlistLoop_errors (procEnv : String → ProcOutcome) (l : List PVideo) :
    (playlistLoop procEnv l).2.1 = 0 ↔ ∀ v ∈ l, (playlistStep procEnv v).1 = true := by
  induction l with
  | nil => simp [playlistLoop]
  | cons v rest ih =>
    unfold playlistLoop
    cases h : (playlistStep procEnv v).1 <;> simp [h, ih]

theorem playlistLoop_attempts (procEnv : String → ProcOutcome) (l : List PVideo) :
    (playlistLoop procEnv l).2.2 = (l.filterMap PVideo.id).map videoPath := by
  induction l with
  | nil => simp [playlistLoop]
  | cons v rest ih =>
    unfold playlistLoop
    simp only [playlistStep_attempt, ih, List.filterMap_cons]
    cases v.id <;> simp

/-- C6: `process_playlist` attempts every id-bearing entry in reversed
input order regardless of earlier failures or exceptions (each
per-video failure or exception is caught and counted, and the loop
continues), and it returns `true` iff zero entries failed, i.e. iff
every entry has an id and its `process_video` call returned `true`. -/
theorem C6_batch_isolation (procEnv : String → ProcOutcome) (videos : List PVideo) :
    (process_playlist procEnv videos).2 =
      (videos.reverse.filterMap PVideo.id).map videoPath ∧
    ((process_playlist procEnv videos).1 = true ↔
      ∀ v ∈ videos, ∃ vid, v.id = some vid ∧ procEnv (videoPath vid) = .ok true) := by
  unfold process_playlist
  by_cases hv : videos = []
  · subst hv; simp
  · have hne : videos.isEmpty = false := by
      cases videos with
      | nil => exact absurd rfl hv
      | cons a l => rfl
    rw [if_neg (show ¬videos.isEmpty = true by simp [hne])]
    constructor
    · exact playlistLoop_attempts procEnv videos.reverse
    · rw [beq_iff_eq, playlistLoop_errors]
      constructor
      · intro h w hw
        exact (playlistStep_success procEnv w).mp (h w (List.mem_reverse.mpr hw))
      · intro h w hw
        exact (playlistStep_success procEnv w).mpr (h w (List.mem_reverse.mp hw))

/-! ## Claim C9: `_truncate_to_grapheme_limit` -/

theorem count_graphemes_append_ellipsis (l : List Char) :
    count_graphemes (l ++ ellipsisChars) = count_graphemes l + 3 := by
  cases l with
  | nil => decide
  | cons c rest =>
    have h3 : ellipsisChars.countP (fun c => !(isCombiningMark c)) = 3 := by decide
    simp only [count_graphemes, List.cons_append, List.countP_append, h3]
    omega

theorem shrinkToLimit_le (limit : Nat) (l : List Char) :
    count_graphemes (shrinkToLimit limit l) ≤ limit := by
  generalize hn : l.length = n
  induction n using Nat.strong_induction_on generalizing l with
  | _ n ih =>
    rw [shrinkToLimit]
    split
    · assumption
    · next h =>
      have hne : l ≠ [] := by
        intro he
        subst he
        simp [count_graphemes] at h
      have hpos : 0 < l.length := List.length_pos.mpr hne
      have hlt : l.dropLast.length < n := by
        simp only [List.length_dropLast]
        omega
      exact ih _ hlt l.dropLast rfl

theorem shrinkToLimit_length_le (limit : Nat) (l : List Char) :
    (shrinkToLimit limit l).length ≤ l.length := by
  generalize hn : l.length = n
  induction n using Nat.strong_induction_on generalizing l with
  | _ n ih =>
    rw [shrinkToLimit]
    split
    · omega
    · next h =>
      have hne : l ≠ [] := by
        intro he
        subst he
        simp [count_graphemes] at h
      have hpos : 0 < l.length := List.length_pos.mpr hne
      have hlt : l.dropLast.length < n := by
        simp only [List.length_dropLast]
        omega
      have := ih _ hlt l.dropLast rfl
      omega

theorem shrinkToLimit_length_lt (limit : Nat) (l : List Char)
    (h : ¬count_graphemes l ≤ limit) : (shrinkToLimit limit l).length < l.length := by
  rw [shrinkToLimit, if_neg h]
  have hne : l ≠ [] := by
    intro he
    subst he
    simp [count_graphemes] at h
  have hpos : 0 < l.length := List.length_pos.mpr hne
  have := shrinkToLimit_length_le limit l.dropLast
  simp only [List.length_dropLast] at this
  omega

theorem shrinkForEllipsis_total (limit : Nat) (h3 : 3 ≤ limit) :
    ∀ (fuel : Nat) (l : List Char), l.length < fuel →
      ∃ r, shrinkForEllipsis limit fuel l = some r ∧
        count_graphemes (r ++ ellipsisChars) ≤ limit := by
  intro fuel
  induction fuel with
  | zero => intro l hl; omega
  | succ f ih =>
    intro l hl
    rw [shrinkForEllipsis]
    split
    · next h => exact ⟨l, rfl, h⟩
    · next h =>
      have hne : l ≠ [] := by
        intro he
        subst he
        rw [count_graphemes_append_ellipsis] at h
        simp [count_graphemes] at h
        omega
      have hpos : 0 < l.length := List.length_pos.mpr hne
      refine ih l.dropLast ?_
      simp only [List.length_dropLast]
      omega

/-- C9: for every text and every limit of at least 3,
`_truncate_to_grapheme_limit` terminates (returns `some`), the result
has at most `limit` graphemes, it equals the input exactly when the
input already has at most `limit` graphemes, and the function is
idempotent. -/
theorem C9_truncate_grapheme_limit (text : List Char) (limit : Nat) (h3 : 3 ≤ limit) :
    ∃ r, truncate_to_grapheme_limit text limit = some r ∧
      count_graphemes r ≤ limit ∧
      (r = text ↔ count_graphemes text ≤ limit) ∧
      truncate_to_grapheme_limit r limit = some r := by
  by_cases h : count_graphemes text ≤ limit
  · refine ⟨text, ?_, h, ?_, ?_⟩
    · rw [truncate_to_grapheme_limit, if_pos h]
    · simp [h]
    · rw [truncate_to_grapheme_limit, if_pos h]
  · have hle := shrinkToLimit_le limit text
    have hlt := shrinkToLimit_length_lt limit text h
    have hne : shrinkToLimit limit text ≠ text := by
      intro he
      rw [he] at hlt
      omega
    obtain ⟨r0, hr0, hcnt⟩ :=
      shrinkForEllipsis_total limit h3 ((shrinkToLimit limit text).length + 1)
        (shrinkToLimit limit text) (by omega)
    have hcnt2 : count_graphemes r0 + 3 ≤ limit := by
      rwa [count_graphemes_append_ellipsis] at hcnt
    refine ⟨r0 ++ ellipsisChars, ?_, ?_, ?_, ?_⟩
    · rw [truncate_to_grapheme_limit, if_neg h]
      simp only [beq_eq_false_iff_ne.mpr hne, Bool.false_eq_true, if_false]
      rw [hr0]
      rfl
    · omega
    · constructor
      · intro he
        rw [← he] at h
        omega
      · intro hc
        exact absurd hc h
    · rw [truncate_to_grapheme_limit, if_pos (by omega)]

/-! ## Claims C3/C4/C5: the generation/validation loop -/

theorem bskyLoop_succ (genv : GenEnv) (it : Nat) (g : String) (r : Nat) :
    bskyLoop genv it g (r + 1) =
      match genv.gen it g with
      | .error e => ⟨.error e, 0⟩
      | .ok raw =>
        let post_content := raw.pyTrim
        let v := validate_bluesky_post genv.val post_content
        if v.1 then ⟨.ok post_content, 1⟩
        else if r == 0 then ⟨.ok (forceTruncate post_content), 1⟩
        else ⟨(bskyLoop genv (it + 1) v.2 r).result,
              (bskyLoop genv (it + 1) v.2 r).cycles + 1⟩ := rfl

theorem pyLen_forceTruncate (post_content : String) :
    pyLen (forceTruncate post_content) ≤ 290 := by
  unfold forceTruncate
  split
  · next h =>
    rw [pyLen_append, pyLen_pySlice]
    have he : pyLen "..." = 3 := by decide
    rw [he]
    omega
  · next h => omega

/-- One rejected iteration that is not the last: the loop recurses with
the validator's feedback. -/
theorem bskyLoop_reject_step (genv : GenEnv) (it : Nat) (g : String) (r : Nat)
    (s : String) (hgen : genv.gen it g = .ok s)
    (hrej : (validate_bluesky_post genv.val s.pyTrim).1 = false) :
    bskyLoop genv it g (r + 2) =
      ⟨(bskyLoop genv (it + 1) (validate_bluesky_post genv.val s.pyTrim).2 (r + 1)).result,
        (bskyLoop genv (it + 1) (validate_bluesky_post genv.val s.pyTrim).2 (r + 1)).cycles
          + 1⟩ := by
  rw [show r + 2 = (r + 1) + 1 from rfl, bskyLoop_succ, hgen]
  simp [hrej]

/-- The last iteration, rejected: force-accept with truncation. -/
theorem bskyLoop_reject_last (genv : GenEnv) (it : Nat) (g : String)
    (s : String) (hgen : genv.gen it g = .ok s)
    (hrej : (validate_bluesky_post genv.val s.pyTrim).1 = false) :
    bskyLoop genv it g 1 = ⟨.ok (forceTruncate s.pyTrim), 1⟩ := by
  rw [show (1 : Nat) = 0 + 1 from rfl, bskyLoop_succ, hgen]
  simp [hrej]

theorem bskyState_succ (genv : GenEnv) (i : Nat) :
    bskyState genv (i + 1) =
      (((genv.gen (i + 1) (bskyState genv i).2).toOption.getD "").pyTrim,
        (validate_bluesky_post genv.val
          ((genv.gen (i + 1) (bskyState genv i).2).toOption.getD "").pyTrim).2) := rfl

/-- C3: if the validator rejects the candidate on every iteration and
the generator never raises, `generate_bluesky_post` performs exactly 5
generate/validate cycles, terminates without raising, and returns the
fifth candidate, truncated to `[:287] + "..."` when its character count
exceeds 290, so the returned text has at most 290 characters. -/
theorem C3_validation_exhaustion (genv : GenEnv) (video_id analysis_content : String)
    (hgen : ∀ i g, ∃ s, genv.gen i g = .ok s)
    (hrej : ∀ p, (validate_bluesky_post genv.val p).1 = false)
    (hcontent : analysis_content.pyTrim ≠ "") :
    (generate_bluesky_post genv video_id analysis_content).cycles = 5 ∧
    (generate_bluesky_post genv video_id analysis_content).result =
      .ok (forceTruncate (bskyState genv 5).1) ∧
    pyLen (forceTruncate (bskyState genv 5).1) ≤ 290 := by
  obtain ⟨s1, h1⟩ := hgen 1 ""
  obtain ⟨s2, h2⟩ := hgen 2 ((validate_bluesky_post genv.val s1.pyTrim).2)
  obtain ⟨s3, h3⟩ := hgen 3 ((validate_bluesky_post genv.val s2.pyTrim).2)
  obtain ⟨s4, h4⟩ := hgen 4 ((validate_bluesky_post genv.val s3.pyTrim).2)
  obtain ⟨s5, h5⟩ := hgen 5 ((validate_bluesky_post genv.val s4.pyTrim).2)
  have hb0 : bskyState genv 0 = ("", "") := rfl
  have hb1 : bskyState genv 1 =
      (s1.pyTrim, (validate_bluesky_post genv.val s1.pyTrim).2) := by
    rw [show (1 : Nat) = 0 + 1 from rfl, bskyState_succ]
    simp [hb0, h1, Except.toOption]
  have hb2 : bskyState genv 2 =
      (s2.pyTrim, (validate_bluesky_post genv.val s2.pyTrim).2) := by
    rw [show (2 : Nat) = 1 + 1 from rfl, bskyState_succ]
    simp [hb1, h2, Except.toOption]
  have hb3 : bskyState genv 3 =
      (s3.pyTrim, (validate_bluesky_post genv.val s3.pyTrim).2) := by
    rw [show (3 : Nat) = 2 + 1 from rfl, bskyState_succ]
    simp [hb2, h3, Except.toOption]
  have hb4 : bskyState genv 4 =
      (s4.pyTrim, (validate_bluesky_post genv.val s4.pyTrim).2) := by
    rw [show (4 : Nat) = 3 + 1 from rfl, bskyState_succ]
    simp [hb3, h4, Except.toOption]
  have hb5 : bskyState genv 5 =
      (s5.pyTrim, (validate_bluesky_post genv.val s5.pyTrim).2) := by
    rw [show (5 : Nat) = 4 + 1 from rfl, bskyState_succ]
    simp [hb4, h5, Except.toOption]
  have hl5 : bskyLoop genv 5 ((validate_bluesky_post genv.val s4.pyTrim).2) 1 =
      ⟨.ok (forceTruncate s5.pyTrim), 1⟩ :=
    bskyLoop_reject_last genv 5 _ s5 h5 (hrej _)
  have hl4 : bskyLoop genv 4 ((validate_bluesky_post genv.val s3.pyTrim).2) 2 =
      ⟨.ok (forceTruncate s5.pyTrim), 2⟩ := by
    rw [show (2 : Nat) = 0 + 2 from rfl,
      bskyLoop_reject_step genv 4 _ 0 s4 h4 (hrej _)]
    simp [hl5]
  have hl3 : bskyLoop genv 3 ((validate_bluesky_post genv.val s2.pyTrim).2) 3 =
      ⟨.ok (forceTruncate s5.pyTrim), 3⟩ := by
    rw [show (3 : Nat) = 1 + 2 from rfl,
      bskyLoop_reject_step genv 3 _ 1 s3 h3 (hrej _)]
    simp [hl4]
  have hl2 : bskyLoop genv 2 ((validate_bluesky_post genv.val s1.pyTrim).2) 4 =
      ⟨.ok (forceTruncate s5.pyTrim), 4⟩ := by
    rw [show (4 : Nat) = 2 + 2 from rfl,
      bskyLoop_reject_step genv 2 _ 2 s2 h2 (hrej _)]
    simp [hl3]
  have hl1 : bskyLoop genv 1 "" 5 = ⟨.ok (forceTruncate s5.pyTrim), 5⟩ := by
    rw [show (5 : Nat) = 3 + 2 from rfl,
      bskyLoop_reject_step genv 1 "" 3 s1 h1 (hrej _)]
    simp [hl2]
  have hfinal : generate_bluesky_post genv video_id analysis_content =
      ⟨.ok (forceTruncate s5.pyTrim), 5⟩ := by
    unfold generate_bluesky_post
    rw [if_neg (by simp [hcontent])]
    simp [hl1]
  refine ⟨by rw [hfinal], ?_, pyLen_forceTruncate _⟩
  rw [hfinal, hb5]

/-- Witness for C3 at a concrete environment. -/
theorem C3_witness :
    (generate_bluesky_post c3Genv "vid" "transcript words").cycles = 5 ∧
    (generate_bluesky_post c3Genv "vid" "transcript words").result =
      .ok (forceTruncate (bskyState c3Genv 5).1) ∧
    pyLen (forceTruncate (bskyState c3Genv 5).1) ≤ 290 :=
  C3_validation_exhaustion c3Genv "vid" "transcript words"
    (fun _ _ => ⟨_, rfl⟩) (fun _ => rfl) (by decide)

/-- `_manual_validate_post` accepts exactly the texts with at most 290
code points and at least two `'#'` characters. -/
theorem manual_validate_meets (post : String) :
    (manual_validate_post post).1 = true ↔
      pyLen post ≤ 290 ∧ pyCountChar post '#' ≥ 2 := by
  unfold manual_validate_post
  dsimp only
  split
  · next h => simp at h; simp [h.1, h.2]
  · next h => simp at h; simp; omega

/-- C4 (amended): whenever the LLM validation response lacks a parseable
character count or hashtag count, validation falls back to manual
validation, which is total and accepts iff the text has at most 290
characters (code points, not graphemes) and at least two `'#'`
characters. -/
theorem C4_manual_fallback (valEnv : String → Option String) (post resp : String)
    (hresp : valEnv post = some resp)
    (hparse : (parseValidation resp.pyTrim).charCount = none ∨
      (parseValidation resp.pyTrim).hashtagCount = none) :
    validate_bluesky_post valEnv post = manual_validate_post post ∧
    ((manual_validate_post post).1 = true ↔
      pyLen post ≤ 290 ∧ pyCountChar post '#' ≥ 2) := by
  refine ⟨?_, manual_validate_meets post⟩
  unfold validate_bluesky_post
  rw [hresp]
  by_cases hshort : (resp.pyTrim == "" || decide (pyLen resp.pyTrim < 10)) = true
  · simp only [hshort, if_true]
  · simp only [Bool.not_eq_true] at hshort
    simp only [hshort, Bool.false_eq_true, if_false]
    rcases hparse with h | h
    · rw [h]
    · cases hcc : (parseValidation resp.pyTrim).charCount with
      | none => rfl
      | some v => rw [h]

set_option maxRecDepth 8000 in
/-- Counterexample for C4 as stated: the fallback path triggers (no
parseable character count), the text has at most 290 graphemes and at
least two `'#'` characters, yet manual validation rejects it — because
`_manual_validate_post` counts code points (`len`), not graphemes. -/
theorem C4_counterexample :
    count_graphemes c4Post.data ≤ 290 ∧
    pyCountChar c4Post '#' ≥ 2 ∧
    c4Val c4Post = some c4Resp ∧
    (parseValidation c4Resp.pyTrim).charCount = none ∧
    (validate_bluesky_post c4Val c4Post).1 = false := by decide

/-- Witness for C4 (amended) at a concrete environment. -/
theorem C4_witness :
    validate_bluesky_post c4Val "hello there" = manual_validate_post "hello there" ∧
    ((manual_validate_post "hello there").1 = true ↔
      pyLen "hello there" ≤ 290 ∧ pyCountChar "hello there" '#' ≥ 2) :=
  C4_manual_fallback c4Val "hello there" c4Resp rfl (Or.inl (by decide))

/-- Counterexample for C5 as stated: the generator raises on iteration 1
only, iteration 2 would return a candidate the validator approves, yet
`generate_bluesky_post` raises immediately after zero completed cycles —
the per-iteration catch the claim describes does not exist. -/
theorem C5_counterexample :
    (generate_bluesky_post c5Genv "vid123" "the transcript").result =
      .error ("Failed to generate Bluesky post for video vid123: Ollama chat failed: rate limited") ∧
    (generate_bluesky_post c5Genv "vid123" "the transcript").cycles = 0 ∧
    c5Genv.gen 2 "" = .ok c5GoodPost ∧
    (validate_bluesky_post c5Genv.val c5GoodPost).1 = true :=
  ⟨rfl, rfl, rfl, rfl⟩

/-- C5 (amended): an exception from the generative collaborator is not
caught per-iteration: whenever the generation call of the iteration
being executed raises, the loop stops at once with that error (zero
further cycles), and at the top level a first-iteration failure makes
the whole call raise the wrapped error. -/
theorem C5_generator_error_propagates (genv : GenEnv) (video_id analysis_content e : String)
    (hcontent : analysis_content.pyTrim ≠ "") (h1 : genv.gen 1 "" = .error e) :
    generate_bluesky_post genv video_id analysis_content =
      ⟨.error ("Failed to generate Bluesky post for video " ++ video_id ++ ": " ++ e), 0⟩ ∧
    ∀ (it r : Nat) (g e2 : String), genv.gen it g = .error e2 →
      bskyLoop genv it g (r + 1) = ⟨.error e2, 0⟩ := by
  have hloop : ∀ (it r : Nat) (g e2 : String), genv.gen it g = .error e2 →
      bskyLoop genv it g (r + 1) = ⟨.error e2, 0⟩ := by
    intro it r g e2 h
    rw [bskyLoop_succ, h]
  refine ⟨?_, hloop⟩
  unfold generate_bluesky_post
  rw [if_neg (by simp [hcontent])]
  rw [show (5 : Nat) = 4 + 1 from rfl, hloop 1 4 "" e h1]

/-- Witness for C5 (amended) at a concrete environment. -/
theorem C5_witness :
    generate_bluesky_post c5Genv "vid123" "the transcript" =
      ⟨.error ("Failed to generate Bluesky post for video vid123" ++ ": " ++
        "Ollama chat failed: rate limited"), 0⟩ ∧
    ∀ (it r : Nat) (g e2 : String), c5Genv.gen it g = .error e2 →
      bskyLoop c5Genv it g (r + 1) = ⟨.error e2, 0⟩ :=
  C5_generator_error_propagates c5Genv "vid123" "the transcript"
    "Ollama chat failed: rate limited" (by decide) rfl

/-! ## Pipeline composition lemmas -/

theorem append_suffix_ne_nil (base sfx : String) (h : sfx.data ≠ []) :
    (base ++ sfx).data ≠ [] := by
  rw [data_append]
  simp [h]

theorem ne_by_last (a b : String) (c d : Char) (ha : a.data.getLast? = some c)
    (hb : b.data.getLast? = some d) (hcd : c ≠ d) : a ≠ b := by
  apply string_ne_of_last_ne
  rw [ha, hb]
  simp [hcd]

theorem mem_andThen_store (x : String) {s0 : Store} (r : StageRes) (k : Store → StageRes)
    (h1 : x ∈ r.store ↔ x ∈ s0) (h2 : ∀ s, x ∈ (k s).store ↔ x ∈ s) :
    x ∈ (andThen r k).store ↔ x ∈ s0 := by
  unfold andThen
  split
  · exact (h2 r.store).trans h1
  · exact h1

theorem mem_andThen_events (e : Event) (r : StageRes) (k : Store → StageRes) :
    e ∈ (andThen r k).events ↔
      e ∈ r.events ∨ (r.ok = true ∧ e ∈ (k r.store).events) := by
  unfold andThen
  split <;> simp_all

theorem not_mem_andThen_events (e : Event) (r : StageRes) (k : Store → StageRes)
    (h1 : e ∉ r.events) (h2 : ∀ s, e ∉ (k s).events) : e ∉ (andThen r k).events := by
  rw [mem_andThen_events]
  intro h
  rcases h with h | ⟨_, h⟩
  · exact h1 h
  · exact h2 r.store h

theorem store_wavStep (env : Env) (folder base : String) (st : FileStatus) (x : String)
    (hx : x ≠ objName folder (base ++ ".wav")) (s : Store) :
    x ∈ (wavStep env s folder base st).store ↔ x ∈ s := by
  unfold wavStep convert_audio
  dsimp only
  split_ifs <;> simp [List.mem_cons, hx]

theorem store_txtStep (env : Env) (folder base : String) (st : FileStatus) (x : String)
    (hx : x ≠ joinName folder (base ++ ".txt")) (s : Store) :
    x ∈ (txtStep env s folder base st).store ↔ x ∈ s := by
  unfold txtStep transcribe_audio
  dsimp only
  split_ifs <;> simp [List.mem_cons, hx]

theorem store_thumbStep (env : Env) (folder base : String) (st : FileStatus) (x : String)
    (hx : x ≠ objName folder (base ++ ".webp")) (s : Store) :
    x ∈ (thumbStep env s folder base st).store ↔ x ∈ s := by
  unfold thumbStep download_and_upload_thumbnail
  dsimp only
  split_ifs <;> simp [List.mem_cons, hx]

theorem store_analysisStep (env : Env) (folder base : String) (st : FileStatus) (x : String)
    (hx : x ≠ joinName folder (base ++ "-analysis.txt")) (s : Store) :
    x ∈ (analysisStep env s folder base st).store ↔ x ∈ s := by
  unfold analysisStep generate_analysis
  dsimp only
  split_ifs <;> simp [List.mem_cons, hx]

theorem store_linkedinStep (env : Env) (folder base : String) (st : FileStatus) (x : String)
    (hx : x ≠ joinName folder (base ++ "-linkedin.txt")) (s : Store) :
    x ∈ (linkedinStep env s folder base st).store ↔ x ∈ s := by
  unfold linkedinStep generate_linkedin_post
  dsimp only
  split_ifs <;> simp [List.mem_cons, hx]

theorem store_blueskyStep (env : Env) (folder base : String) (st : FileStatus) (x : String)
    (s : Store) : x ∈ (blueskyStep env s folder base st).store ↔ x ∈ s := by
  unfold blueskyStep
  simp

theorem events_wavStep_sub (env : Env) (s : Store) (folder base : String) (st : FileStatus)
    (e : Event) (he : e ∈ (wavStep env s folder base st).events) :
    e = Event.execAudio ∨ e = Event.put (objName folder (base ++ ".wav")) ∨
      e = Event.fetch (objName folder (base ++ ".wav")) := by
  unfold wavStep convert_audio at he
  dsimp only at he
  split_ifs at he <;> (simp_all; try tauto)

theorem events_txtStep_sub (env : Env) (s : Store) (folder base : String) (st : FileStatus)
    (e : Event) (he : e ∈ (txtStep env s folder base st).events) :
    e = Event.execTranscribe ∨ e = Event.put (joinName folder (base ++ ".txt")) ∨
      e = Event.fetch (objName folder (base ++ ".txt")) := by
  unfold txtStep transcribe_audio at he
  dsimp only at he
  split_ifs at he <;> (simp_all; try tauto)

theorem events_thumbStep_sub (env : Env) (s : Store) (folder base : String) (st : FileStatus)
    (e : Event) (he : e ∈ (thumbStep env s folder base st).events) :
    e = Event.execThumb ∨ e = Event.put (objName folder (base ++ ".webp")) ∨
      e = Event.query (objName folder (base ++ ".json")) ∨
      e = Event.fetch (objName folder (base ++ ".json")) := by
  unfold thumbStep download_and_upload_thumbnail at he
  dsimp only at he
  split_ifs at he <;> (simp_all; try tauto)

theorem events_analysisStep_sub (env : Env) (s : Store) (folder base : String) (st : FileStatus)
    (e : Event) (he : e ∈ (analysisStep env s folder base st).events) :
    e = Event.execAnalysis ∨ e = Event.put (joinName folder (base ++ "-analysis.txt")) := by
  unfold analysisStep generate_analysis at he
  dsimp only at he
  split_ifs at he <;> simp_all

theorem events_linkedinStep_sub (env : Env) (s : Store) (folder base : String) (st : FileStatus)
    (e : Event) (he : e ∈ (linkedinStep env s folder base st).events) :
    e = Event.execLinkedin ∨ e = Event.put (joinName folder (base ++ "-linkedin.txt")) := by
  unfold linkedinStep generate_linkedin_post at he
  dsimp only at he
  split_ifs at he <;> simp_all

theorem events_blueskyStep_empty (env : Env) (s : Store) (folder base : String)
    (st : FileStatus) : (blueskyStep env s folder base st).events = [] := by
  unfold blueskyStep
  simp

theorem mem_pipelineRest_store (env : Env) (store : Store) (folder fn base : String)
    (st : FileStatus) (x : String)
    (hw : x ≠ objName folder (base ++ ".wav"))
    (ht : x ≠ joinName folder (base ++ ".txt"))
    (hb : x ≠ objName folder (base ++ ".webp"))
    (ha : x ≠ joinName folder (base ++ "-analysis.txt"))
    (hl : x ≠ joinName folder (base ++ "-linkedin.txt")) :
    x ∈ (pipelineRest env store folder fn base st).store ↔ x ∈ store := by
  unfold pipelineRest
  refine mem_andThen_store _ _ _ Iff.rfl ?_
  intro s1
  refine mem_andThen_store _ _ _ Iff.rfl ?_
  intro s2
  refine mem_andThen_store _ _ _ (store_wavStep env folder base st x hw s2) ?_
  intro s3
  refine mem_andThen_store _ _ _ (store_txtStep env folder base st x ht s3) ?_
  intro s4
  refine mem_andThen_store _ _ _ (store_thumbStep env folder base st x hb s4) ?_
  intro s5
  refine mem_andThen_store _ _ _ (store_analysisStep env folder base st x ha s5) ?_
  intro s6
  refine mem_andThen_store _ _ _ (store_linkedinStep env folder base st x hl s6) ?_
  intro s7
  exact store_blueskyStep env folder base st x s7

theorem shortCircuit_not_mem_pipelineRest (env : Env) (store : Store)
    (folder fn base : String) (st : FileStatus) :
    Event.shortCircuit ∉ (pipelineRest env store folder fn base st).events := by
  unfold pipelineRest
  refine not_mem_andThen_events _ _ _ (by simp) ?_
  intro s1
  refine not_mem_andThen_events _ _ _ (by simp) ?_
  intro s2
  refine not_mem_andThen_events _ _ _ (fun h => by
    rcases events_wavStep_sub env s2 folder base st _ h with h | h | h <;>
      exact Event.noConfusion h) ?_
  intro s3
  refine not_mem_andThen_events _ _ _ (fun h => by
    rcases events_txtStep_sub env s3 folder base st _ h with h | h | h <;>
      exact Event.noConfusion h) ?_
  intro s4
  refine not_mem_andThen_events _ _ _ (fun h => by
    rcases events_thumbStep_sub env s4 folder base st _ h with h | h | h | h <;>
      exact Event.noConfusion h) ?_
  intro s5
  refine not_mem_andThen_events _ _ _ (fun h => by
    rcases events_analysisStep_sub env s5 folder base st _ h with h | h <;>
      exact Event.noConfusion h) ?_
  intro s6
  refine not_mem_andThen_events _ _ _ (fun h => by
    rcases events_linkedinStep_sub env s6 folder base st _ h with h | h <;>
      exact Event.noConfusion h) ?_
  intro s7
  rw [events_blueskyStep_empty]
  simp

/-! ## Claim C10: the raw-metadata JSON artifact is never written -/

/-- C10: no `process_video` run writes the `{base}.json` raw-metadata
object — it is only read — so its existence-snapshot entry is the same
before and after any run, and a job whose `.json` object is absent from
the store can never take the all-outputs-exist short-circuit. -/
theorem C10_json_never_written (env : Env) (store : Store) (minio_path : String)
    (force : Bool) :
    (objName (parse_minio_path minio_path).1
        (((parse_minio_path minio_path).2.pyDropRight 4) ++ ".json") ∈
      (process_video env store minio_path force).store ↔
      objName (parse_minio_path minio_path).1
        (((parse_minio_path minio_path).2.pyDropRight 4) ++ ".json") ∈ store) ∧
    (objName (parse_minio_path minio_path).1
        (((parse_minio_path minio_path).2.pyDropRight 4) ++ ".json") ∉ store →
      Event.shortCircuit ∉ (process_video env store minio_path force).events) := by
  rcases hp : parse_minio_path minio_path with ⟨folder, fn⟩
  unfold process_video
  simp only [hp]
  set base := fn.pyDropRight 4 with hbase
  set jn := objName folder (base ++ ".json") with hjnd
  have hjn_last : jn.data.getLast? = some 'n' :=
    last_objName _ _ _ (last_append_suffix base ".json" 'n' (by decide) (by decide))
      (append_suffix_ne_nil _ _ (by decide))
  have hne_wav : jn ≠ objName folder (base ++ ".wav") :=
    ne_by_last _ _ 'n' 'v' hjn_last
      (last_objName _ _ _ (last_append_suffix base ".wav" 'v' (by decide) (by decide))
        (append_suffix_ne_nil _ _ (by decide))) (by decide)
  have hne_txt : jn ≠ joinName folder (base ++ ".txt") :=
    ne_by_last _ _ 'n' 't' hjn_last
      (last_joinName _ _ _ (last_append_suffix base ".txt" 't' (by decide) (by decide))
        (append_suffix_ne_nil _ _ (by decide))) (by decide)
  have hne_thumb : jn ≠ objName folder (base ++ ".webp") :=
    ne_by_last _ _ 'n' 'p' hjn_last
      (last_objName _ _ _ (last_append_suffix base ".webp" 'p' (by decide) (by decide))
        (append_suffix_ne_nil _ _ (by decide))) (by decide)
  have hne_ana : jn ≠ joinName folder (base ++ "-analysis.txt") :=
    ne_by_last _ _ 'n' 't' hjn_last
      (last_joinName _ _ _ (last_append_suffix base "-analysis.txt" 't' (by decide) (by decide))
        (append_suffix_ne_nil _ _ (by decide))) (by decide)
  have hne_link : jn ≠ joinName folder (base ++ "-linkedin.txt") :=
    ne_by_last _ _ 'n' 't' hjn_last
      (last_joinName _ _ _ (last_append_suffix base "-linkedin.txt" 't' (by decide) (by decide))
        (append_suffix_ne_nil _ _ (by decide))) (by decide)
  split
  · simp
  · split
    · next hforce =>
      split
      · next h => simp [allExist, allFalseStatus] at h
      · refine ⟨mem_pipelineRest_store env store folder fn base _ jn
          hne_wav hne_txt hne_thumb hne_ana hne_link, ?_⟩
        intro hjn
        simp only [List.mem_append]
        rintro (h | h)
        · simp at h
        · exact shortCircuit_not_mem_pipelineRest env store folder fn base _ h
    · next hforce =>
      split
      · next h =>
        refine ⟨Iff.rfl, ?_⟩
        intro hjn
        exfalso
        rw [Bool.and_eq_true] at h
        obtain ⟨hf, hall⟩ := h
        simp [allExist, check_files_exist, storeExists] at hall
        exact hjn (by tauto)
      · refine ⟨mem_pipelineRest_store env store folder fn base _ jn
          hne_wav hne_txt hne_thumb hne_ana hne_link, ?_⟩
        intro hjn
        simp only [List.mem_append]
        rintro (h | h)
        · simp [check_files_exist] at h
        · exact shortCircuit_not_mem_pipelineRest env store folder fn base _ h

theorem execAudio_not_mem_pipelineRest (env : Env) (store : Store) (folder fn base : String)
    (st : FileStatus) (hwav : st.wav = true) :
    Event.execAudio ∉ (pipelineRest env store folder fn base st).events := by
  unfold pipelineRest
  refine not_mem_andThen_events _ _ _ (by simp) ?_
  intro s1
  refine not_mem_andThen_events _ _ _ (by simp) ?_
  intro s2
  refine not_mem_andThen_events _ _ _ ?_ ?_
  · unfold wavStep
    rw [hwav]
    split_ifs <;> simp_all
  intro s3
  refine not_mem_andThen_events _ _ _ (fun h => by
    rcases events_txtStep_sub env s3 folder base st _ h with h | h | h <;>
      exact Event.noConfusion h) ?_
  intro s4
  refine not_mem_andThen_events _ _ _ (fun h => by
    rcases events_thumbStep_sub env s4 folder base st _ h with h | h | h | h <;>
      exact Event.noConfusion h) ?_
  intro s5
  refine not_mem_andThen_events _ _ _ (fun h => by
    rcases events_analysisStep_sub env s5 folder base st _ h with h | h <;>
      exact Event.noConfusion h) ?_
  intro s6
  refine not_mem_andThen_events _ _ _ (fun h => by
    rcases events_linkedinStep_sub env s6 folder base st _ h with h | h <;>
      exact Event.noConfusion h) ?_
  intro s7
  rw [events_blueskyStep_empty]
  simp

theorem fetchWav_mem_pipelineRest (env : Env) (store : Store) (folder fn base : String)
    (st : FileStatus) (hwav : st.wav = true)
    (hne_mp4 : objName folder (base ++ ".wav") ≠ objName folder fn)
    (hne_txt : objName folder (base ++ ".wav") ≠ objName folder (base ++ ".txt"))
    (hne_json : objName folder (base ++ ".wav") ≠ objName folder (base ++ ".json"))
    (hmp4 : objName folder fn ∈ store) :
    Event.fetch (objName folder (base ++ ".wav")) ∈
      (pipelineRest env store folder fn base st).events ↔
      (st.txt && st.analysis && st.linkedin && st.bluesky) = false := by
  by_cases hc : (st.txt && st.analysis && st.linkedin && st.bluesky) = false
  · rw [hc]
    simp only [iff_true]
    unfold pipelineRest
    rw [mem_andThen_events]
    right
    refine ⟨by simp [hmp4], ?_⟩
    rw [mem_andThen_events]
    right
    refine ⟨by simp [storeRetrieve, hmp4], ?_⟩
    rw [mem_andThen_events]
    left
    unfold wavStep
    rw [hwav, hc]
    simp
  · have hc2 : (st.txt && st.analysis && st.linkedin && st.bluesky) = true := by
      revert hc
      cases (st.txt && st.analysis && st.linkedin && st.bluesky) <;> simp
    rw [hc2]
    simp only [Bool.true_eq_false, iff_false]
    unfold pipelineRest
    refine not_mem_andThen_events _ _ _ (by simp) ?_
    intro s1
    refine not_mem_andThen_events _ _ _ (by simp [hne_mp4]) ?_
    intro s2
    refine not_mem_andThen_events _ _ _ ?_ ?_
    · unfold wavStep
      rw [hwav, hc2]
      simp
    intro s3
    refine not_mem_andThen_events _ _ _ (fun h => by
      rcases events_txtStep_sub env s3 folder base st _ h with h | h | h
      · exact Event.noConfusion h
      · exact Event.noConfusion h
      · rw [Event.fetch.injEq] at h
        exact hne_txt h) ?_
    intro s4
    refine not_mem_andThen_events _ _ _ (fun h => by
      rcases events_thumbStep_sub env s4 folder base st _ h with h | h | h | h
      · exact Event.noConfusion h
      · exact Event.noConfusion h
      · exact Event.noConfusion h
      · rw [Event.fetch.injEq] at h
        exact hne_json h) ?_
    intro s5
    refine not_mem_andThen_events _ _ _ (fun h => by
      rcases events_analysisStep_sub env s5 folder base st _ h with h | h <;>
        exact Event.noConfusion h) ?_
    intro s6
    refine not_mem_andThen_events _ _ _ (fun h => by
      rcases events_linkedinStep_sub env s6 folder base st _ h with h | h <;>
        exact Event.noConfusion h) ?_
    intro s7
    rw [events_blueskyStep_empty]
    simp

/-! ## Claim C1: idempotence of `process_video` -/

/-- C1 (code bug): for the folder-less job `"video.mp4"` with every
collaborator succeeding, the first `process_video` run returns `true`,
yet the immediately repeated run with identical inputs executes the
transcription stage again (and returns `true`): `object_exists` checks
the key `/video.txt` (`minio_service.py` joins `folder.strip('/')` and
the filename even when the folder is empty) while the first run's
`save` wrote the transcript under the key `video.txt` (`main.py`
pre-joins and omits the folder), so the snapshot never sees the
transcript and the second run is not a no-op. -/
theorem C1_idempotence_code_bug :
    (process_video allOkEnv c1Store "video.mp4" false).ok = true ∧
    (process_video allOkEnv (process_video allOkEnv c1Store "video.mp4" false).store
        "video.mp4" false).ok = true ∧
    ("video.txt" : String) ∈ (process_video allOkEnv c1Store "video.mp4" false).store ∧
    Event.query "/video.txt" ∈
      (process_video allOkEnv (process_video allOkEnv c1Store "video.mp4" false).store
        "video.mp4" false).events ∧
    Event.execTranscribe ∈
      (process_video allOkEnv (process_video allOkEnv c1Store "video.mp4" false).store
        "video.mp4" false).events := by decide

/-- Counterexample for C2 as stated: with every output existing and
`force=true`, the audio, transcription, thumbnail, analysis and
LinkedIn stages all re-execute, but the Bluesky stage does not — its
guard in `process_video` is and-ed with the literal `False`
(main.py 784), so Bluesky post production never runs. -/
theorem C2_counterexample :
    allExist (check_files_exist c2Store "f" "v").1 = true ∧
    (process_video allOkEnv c2Store "f/v.mp4" true).ok = true ∧
    Event.execAudio ∈ (process_video allOkEnv c2Store "f/v.mp4" true).events ∧
    Event.execTranscribe ∈ (process_video allOkEnv c2Store "f/v.mp4" true).events ∧
    Event.execThumb ∈ (process_video allOkEnv c2Store "f/v.mp4" true).events ∧
    Event.execAnalysis ∈ (process_video allOkEnv c2Store "f/v.mp4" true).events ∧
    Event.execLinkedin ∈ (process_video allOkEnv c2Store "f/v.mp4" true).events ∧
    Event.execBluesky ∉ (process_video allOkEnv c2Store "f/v.mp4" true).events := by decide

/-- C2 (amended): with `force=true` the snapshot is synthesized
all-false without any store queries, and — when the collaborators
succeed and the raw video and JSON metadata are present — the run
succeeds with exactly this trace: the only existence queries are the
source-video check and the thumbnail step's JSON-metadata check, the
audio, transcription, thumbnail, analysis and LinkedIn stages all
re-execute even though every output may already exist, and the
disabled Bluesky stage never executes. -/
theorem C2_force_reexecutes_enabled_stages (env : Env) (store : Store) (minio_path : String)
    (hext : ((parse_minio_path minio_path).2.pyToLower.pyEndsWith ".mp4") = true)
    (hA : env.extractAudioOk = true) (hT : env.transcribeOk = true)
    (hJ : env.jsonParseOk = true) (hD : env.thumbDownloadOk = true)
    (hAn : env.analysisOk = true) (hL : env.linkedinOk = true)
    (hs : ∀ n, env.saveOk n = true)
    (hmp4 : objName (parse_minio_path minio_path).1 (parse_minio_path minio_path).2 ∈ store)
    (hjson : objName (parse_minio_path minio_path).1
      (((parse_minio_path minio_path).2.pyDropRight 4) ++ ".json") ∈ store) :
    (process_video env store minio_path true).ok = true ∧
    (process_video env store minio_path true).events =
      [Event.query (objName (parse_minio_path minio_path).1 (parse_minio_path minio_path).2),
       Event.fetch (objName (parse_minio_path minio_path).1 (parse_minio_path minio_path).2),
       Event.execAudio,
       Event.put (objName (parse_minio_path minio_path).1
         (((parse_minio_path minio_path).2.pyDropRight 4) ++ ".wav")),
       Event.execTranscribe,
       Event.put (joinName (parse_minio_path minio_path).1
         (((parse_minio_path minio_path).2.pyDropRight 4) ++ ".txt")),
       Event.query (objName (parse_minio_path minio_path).1
         (((parse_minio_path minio_path).2.pyDropRight 4) ++ ".json")),
       Event.fetch (objName (parse_minio_path minio_path).1
         (((parse_minio_path minio_path).2.pyDropRight 4) ++ ".json")),
       Event.execThumb,
       Event.put (objName (parse_minio_path minio_path).1
         (((parse_minio_path minio_path).2.pyDropRight 4) ++ ".webp")),
       Event.execAnalysis,
       Event.put (joinName (parse_minio_path minio_path).1
         (((parse_minio_path minio_path).2.pyDropRight 4) ++ "-analysis.txt")),
       Event.execLinkedin,
       Event.put (joinName (parse_minio_path minio_path).1
         (((parse_minio_path minio_path).2.pyDropRight 4) ++ "-linkedin.txt"))] := by
  unfold process_video pipelineRest wavStep txtStep thumbStep analysisStep linkedinStep
    blueskyStep
  unfold convert_audio transcribe_audio download_and_upload_thumbnail generate_analysis
    generate_linkedin_post
  simp [hext, hA, hT, hJ, hD, hAn, hL, hs, hmp4, hjson, andThen, allFalseStatus, allExist,
    storeRetrieve, List.mem_cons]

/-- Witness for C2 (amended) at a concrete job. -/
theorem C2_witness :
    (process_video allOkEnv c2Store "f/v.mp4" true).ok = true ∧
    (process_video allOkEnv c2Store "f/v.mp4" true).events =
      [Event.query (objName (parse_minio_path "f/v.mp4").1 (parse_minio_path "f/v.mp4").2),
       Event.fetch (objName (parse_minio_path "f/v.mp4").1 (parse_minio_path "f/v.mp4").2),
       Event.execAudio,
       Event.put (objName (parse_minio_path "f/v.mp4").1
         (((parse_minio_path "f/v.mp4").2.pyDropRight 4) ++ ".wav")),
       Event.execTranscribe,
       Event.put (joinName (parse_minio_path "f/v.mp4").1
         (((parse_minio_path "f/v.mp4").2.pyDropRight 4) ++ ".txt")),
       Event.query (objName (parse_minio_path "f/v.mp4").1
         (((parse_minio_path "f/v.mp4").2.pyDropRight 4) ++ ".json")),
       Event.fetch (objName (parse_minio_path "f/v.mp4").1
         (((parse_minio_path "f/v.mp4").2.pyDropRight 4) ++ ".json")),
       Event.execThumb,
       Event.put (objName (parse_minio_path "f/v.mp4").1
         (((parse_minio_path "f/v.mp4").2.pyDropRight 4) ++ ".webp")),
       Event.execAnalysis,
       Event.put (joinName (parse_minio_path "f/v.mp4").1
         (((parse_minio_path "f/v.mp4").2.pyDropRight 4) ++ "-analysis.txt")),
       Event.execLinkedin,
       Event.put (joinName (parse_minio_path "f/v.mp4").1
         (((parse_minio_path "f/v.mp4").2.pyDropRight 4) ++ "-linkedin.txt"))] :=
  C2_force_reexecutes_enabled_stages allOkEnv c2Store "f/v.mp4" (by decide) rfl rfl rfl rfl
    rfl rfl (fun _ => rfl) (by decide) (by decide)

/-- Counterexample for C7 as stated: the transcript stage is satisfied
(so, per the declared dependency graph, no unsatisfied downstream stage
needs the audio artifact), yet the run fetches the existing WAV into
the working area — the code fetches it whenever any of
transcript/analysis/LinkedIn/Bluesky is unsatisfied, here because the
analysis is missing. -/
theorem C7_counterexample :
    (check_files_exist c7Store "f" "v").1.wav = true ∧
    (check_files_exist c7Store "f" "v").1.txt = true ∧
    (check_files_exist c7Store "f" "v").1.analysis = false ∧
    Event.fetch "f/v.wav" ∈ (process_video allOkEnv c7Store "f/v.mp4" false).events ∧
    Event.execAudio ∉ (process_video allOkEnv c7Store "f/v.mp4" false).events := by decide

/-- C7 (amended): when the WAV artifact is already satisfied per the
snapshot, `process_video` never executes audio production, and it
fetches the existing WAV into the working area exactly when at least
one of the transcript, analysis, LinkedIn-post, or Bluesky-post entries
of the snapshot is unsatisfied — not exactly when the transcript alone
is unsatisfied. -/
theorem C7_wav_fetch_condition (env : Env) (store : Store) (minio_path : String)
    (hext : ((parse_minio_path minio_path).2.pyToLower.pyEndsWith ".mp4") = true)
    (hlast4 : (parse_minio_path minio_path).2.data.getLast? = some '4')
    (hwav : (check_files_exist store (parse_minio_path minio_path).1
        ((parse_minio_path minio_path).2.pyDropRight 4)).1.wav = true)
    (hnotall : allExist (check_files_exist store (parse_minio_path minio_path).1
        ((parse_minio_path minio_path).2.pyDropRight 4)).1 = false)
    (hmp4 : objName (parse_minio_path minio_path).1 (parse_minio_path minio_path).2 ∈ store) :
    Event.execAudio ∉ (process_video env store minio_path false).events ∧
    (Event.fetch (objName (parse_minio_path minio_path).1
        (((parse_minio_path minio_path).2.pyDropRight 4) ++ ".wav")) ∈
        (process_video env store minio_path false).events ↔
      ((check_files_exist store (parse_minio_path minio_path).1
          ((parse_minio_path minio_path).2.pyDropRight 4)).1.txt &&
        (check_files_exist store (parse_minio_path minio_path).1
          ((parse_minio_path minio_path).2.pyDropRight 4)).1.analysis &&
        (check_files_exist store (parse_minio_path minio_path).1
          ((parse_minio_path minio_path).2.pyDropRight 4)).1.linkedin &&
        (check_files_exist store (parse_minio_path minio_path).1
          ((parse_minio_path minio_path).2.pyDropRight 4)).1.bluesky) = false) := by
  rcases hp : parse_minio_path minio_path with ⟨folder, fn⟩
  simp only [hp] at hext hlast4 hwav hnotall hmp4 ⊢
  unfold process_video
  simp only [hp]
  set base := fn.pyDropRight 4 with hbase
  have hfn_ne : fn.data ≠ [] := by
    intro he
    rw [he] at hlast4
    simp at hlast4
  have hwavlast : (objName folder (base ++ ".wav")).data.getLast? = some 'v' :=
    last_objName _ _ _ (last_append_suffix base ".wav" 'v' (by decide) (by decide))
      (append_suffix_ne_nil _ _ (by decide))
  have hne_mp4 : objName folder (base ++ ".wav") ≠ objName folder fn :=
    ne_by_last _ _ 'v' '4' hwavlast (last_objName folder fn '4' hlast4 hfn_ne) (by decide)
  have hne_txt : objName folder (base ++ ".wav") ≠ objName folder (base ++ ".txt") :=
    ne_by_last _ _ 'v' 't' hwavlast
      (last_objName _ _ _ (last_append_suffix base ".txt" 't' (by decide) (by decide))
        (append_suffix_ne_nil _ _ (by decide))) (by decide)
  have hne_json : objName folder (base ++ ".wav") ≠ objName folder (base ++ ".json") :=
    ne_by_last _ _ 'v' 'n' hwavlast
      (last_objName _ _ _ (last_append_suffix base ".json" 'n' (by decide) (by decide))
        (append_suffix_ne_nil _ _ (by decide))) (by decide)
  rw [if_neg (by rw [hext]; simp)]
  have hsnap : (if (false : Bool) = true then (allFalseStatus, ([] : List Event))
      else check_files_exist store folder base) = check_files_exist store folder base := by
    simp
  rw [hsnap]
  rw [if_neg (by rw [hnotall]; simp)]
  constructor
  · simp only [List.mem_append]
    rintro (h | h)
    · simp [check_files_exist] at h
    · exact execAudio_not_mem_pipelineRest env store folder fn base _ hwav h
  · have hsnapev : Event.fetch (objName folder (base ++ ".wav")) ∉
        (check_files_exist store folder base).2 := by
      simp [check_files_exist]
    rw [List.mem_append]
    exact (or_iff_right hsnapev).trans
      (fetchWav_mem_pipelineRest env store folder fn base _ hwav hne_mp4 hne_txt hne_json hmp4)

/-- Witness for C7 (amended) at a concrete job. -/
theorem C7_witness :
    Event.execAudio ∉ (process_video allOkEnv c7Store "f/v.mp4" false).events ∧
    (Event.fetch (objName (parse_minio_path "f/v.mp4").1
        (((parse_minio_path "f/v.mp4").2.pyDropRight 4) ++ ".wav")) ∈
        (process_video allOkEnv c7Store "f/v.mp4" false).events ↔
      ((check_files_exist c7Store (parse_minio_path "f/v.mp4").1
          ((parse_minio_path "f/v.mp4").2.pyDropRight 4)).1.txt &&
        (check_files_exist c7Store (parse_minio_path "f/v.mp4").1
          ((parse_minio_path "f/v.mp4").2.pyDropRight 4)).1.analysis &&
        (check_files_exist c7Store (parse_minio_path "f/v.mp4").1
          ((parse_minio_path "f/v.mp4").2.pyDropRight 4)).1.linkedin &&
        (check_files_exist c7Store (parse_minio_path "f/v.mp4").1
          ((parse_minio_path "f/v.mp4").2.pyDropRight 4)).1.bluesky) = false) :=
  C7_wav_fetch_condition allOkEnv c7Store "f/v.mp4" (by decide) (by decide) (by decide)
    (by decide) (by decide)

/-- Witness for C10 at a concrete job whose `.json` object is absent. -/
theorem C10_witness :
    (objName (parse_minio_path "f/v.mp4").1
        (((parse_minio_path "f/v.mp4").2.pyDropRight 4) ++ ".json") ∈
      (process_video allOkEnv ["f/v.mp4"] "f/v.mp4" false).store ↔
      objName (parse_minio_path "f/v.mp4").1
        (((parse_minio_path "f/v.mp4").2.pyDropRight 4) ++ ".json") ∈
        (["f/v.mp4"] : Store)) ∧
    Event.shortCircuit ∉ (process_video allOkEnv ["f/v.mp4"] "f/v.mp4" false).events :=
  ⟨(C10_json_never_written allOkEnv ["f/v.mp4"] "f/v.mp4" false).1,
   (C10_json_never_written allOkEnv ["f/v.mp4"] "f/v.mp4" false).2 (by decide)⟩

/-- Witness for C9 at a concrete text and limit. -/
theorem C9_witness :
    ∃ r, truncate_to_grapheme_limit ['a', 'b', 'c', 'd', 'e', 'f'] 4 = some r ∧
      count_graphemes r ≤ 4 ∧
      (r = ['a', 'b', 'c', 'd', 'e', 'f'] ↔
        count_graphemes ['a', 'b', 'c', 'd', 'e', 'f'] ≤ 4) ∧
      truncate_to_grapheme_limit r 4 = some r :=
  C9_truncate_grapheme_limit ['a', 'b', 'c', 'd', 'e', 'f'] 4 (by decide)
